import Mathlib

set_option maxRecDepth 8000
set_option autoImplicit false

/-!
Verification of the investor-data query-and-aggregation layer.

The development below is a shallow embedding of the server code: each
exposed operation is a Lean function whose argument is the outcome of the
remote fetch (an error message or the fetched row list), and whose body is
a direct translation of the in-memory filtering, aggregation, scoring and
formatting code. Python strings are modelled as Lean strings with
character-level primitives; Python dicts used as counters are modelled as
insertion-ordered association lists; the stable Python sort is modelled by
a stable insertion sort. CPython float percentages are modelled as exact
rationals.
-/

/-- Truthiness of an optional string field, as in Python: a missing value
and the empty string are falsy, any other string is truthy. -/
def truthy : Option String → Bool
  | none => false
  | some s => s != ""

/-- Rendering of a possibly missing value inside a Python format string:
a missing value prints as the literal text None. -/
def pyStr : Option String → String
  | none => "None"
  | some s => s

/-- Lexicographic comparison of character lists by code point, modelling the
Python string less-than operator. -/
def pyLtChars : List Char → List Char → Bool
  | [], [] => false
  | [], _ :: _ => true
  | _ :: _, [] => false
  | a :: as, b :: bs => if a < b then true else if b < a then false else pyLtChars as bs

/-- Python string less-than (lexicographic by code point). -/
def pyLt (a b : String) : Bool := pyLtChars a.data b.data

/-- Python str.lower, modelled for the ASCII range via Char.toLower. -/
def pyLower (s : String) : String := String.mk (s.data.map Char.toLower)

/-- Test that one character list starts with another. -/
def startsWithChars : List Char → List Char → Bool
  | [], _ => true
  | _ :: _, [] => false
  | a :: as, b :: bs => a == b && startsWithChars as bs

/-- Containment of one character list in another as a contiguous run. -/
def infixOfChars (needle : List Char) : List Char → Bool
  | [] => needle.isEmpty
  | c :: rest => startsWithChars needle (c :: rest) || infixOfChars needle rest

/-- Python substring membership test: needle in hay. -/
def pyInStr (needle hay : String) : Bool := infixOfChars needle.data hay.data

/-- Character-level splitting on a separator predicate, as in Python
str.split with an explicit separator: adjacent and boundary separators
yield empty pieces, and the result is always non-empty. -/
def splitOnPred (p : Char → Bool) : List Char → List (List Char)
  | [] => [[]]
  | c :: rest =>
    match splitOnPred p rest with
    | [] => [[]]
    | piece :: pieces =>
      if p c then [] :: piece :: pieces else (c :: piece) :: pieces

/-- Python str.split(",") on a string. -/
def pySplitComma (s : String) : List String :=
  (splitOnPred (fun c => c == ',') s.data).map String.mk

/-- Python str.split() with no argument: split on whitespace runs, dropping
empty pieces. -/
def pySplitWs (s : String) : List String :=
  ((splitOnPred Char.isWhitespace s.data).filter (fun piece => !piece.isEmpty)).map String.mk

/-- Python str.strip(): drop leading and trailing whitespace. -/
def pyStrip (s : String) : String :=
  String.mk (((s.data.dropWhile Char.isWhitespace).reverse.dropWhile Char.isWhitespace).reverse)

/-- Python slice s[:n] on a string, at character granularity. -/
def pyTake (s : String) (n : Nat) : String := String.mk (s.data.take n)

/-- Python string repetition s * n. -/
def pyRepeat (s : String) (n : Nat) : String := String.join (List.replicate n s)

/-- Single-quote character as a one-character string. -/
def sglq : String := String.mk [Char.ofNat 39]

/-- Concatenation of a list of strings, used to state formatting claims. -/
def joinAll (l : List String) : String := l.foldr (fun a b => a ++ b) ""

/-- Truthiness of an optional integer, as in Python: None and 0 are falsy. -/
def truthyNat : Option Nat → Bool
  | none => false
  | some n => n != 0

/-- Conditional truncation used by the operations that accept a row limit,
modelling the Python pattern: if limit: xs = xs[:limit]. -/
def pySliceOpt {α : Type} (xs : List α) (limit : Option Nat) : List α :=
  if truthyNat limit then xs.take (limit.getD 0) else xs

/-- Investor record: one row of the table restricted to the columns the
operations select. Fields are optional strings, following the record-struct
abstraction of the spec (all fields nullable or absent-capable). -/
structure Record where
  investorName : Option String := none
  website : Option String := none
  globalHQ : Option String := none
  countries : Option String := none
  stage : Option String := none
  thesis : Option String := none
  investorType : Option String := none
  chequeMin : Option String := none
  chequeMax : Option String := none
deriving DecidableEq

/-- Row-limit handling of the remote fetch helper fetch_data_from_supabase:
the limit is applied to the query only when truthy, so None and 0 both leave
the row set unlimited. The externally executed query is abstracted as the
row list it would return without a limit. -/
def applyFetchLimit (rows : List Record) (limit : Option Nat) : List Record :=
  if truthyNat limit then rows.take (limit.getD 0) else rows

/-- Insertion-ordered counter update, modelling counts[k] = counts.get(k, 0) + 1
on a Python dict: an existing key keeps its position, a new key is appended. -/
def bump : List (String × Nat) → String → List (String × Nat)
  | [], k => [(k, 1)]
  | (k0, v) :: rest, k => if k0 == k then (k0, v + 1) :: rest else (k0, v) :: bump rest k

/-- Total of the per-key counts of a counter. -/
def sumCounts (m : List (String × Nat)) : Nat := (m.map (fun p => p.2)).sum

/-- Stable insertion of an element into a list sorted by descending key: the
element goes before the first position whose key does not exceed its own. -/
def insertDescBy {α : Type} (key : α → Nat) (x : α) : List α → List α
  | [] => [x]
  | y :: ys => if key y ≤ key x then x :: y :: ys else y :: insertDescBy key x ys

/-- Stable sort by descending key, modelling Python sorted(..., reverse=True)
and list.sort(..., reverse=True), both of which are stable. -/
def sortDescBy {α : Type} (key : α → Nat) : List α → List α
  | [] => []
  | x :: xs => insertDescBy key x (sortDescBy key xs)

/-- Insertion into a list sorted ascending by the Python string order. -/
def insertAscStr (x : String) : List String → List String
  | [] => [x]
  | y :: ys => if pyLt y x then y :: insertAscStr x ys else x :: y :: ys

/-- Ascending string sort, modelling Python sorted() over a set of strings. -/
def sortAscStr : List String → List String
  | [] => []
  | x :: xs => insertAscStr x (sortAscStr xs)

/-- Insertion-ordered set add, modelling Python set.add ahead of a canonical
ascending sort of the collected elements. -/
def addToSet (acc : List String) (x : String) : List String :=
  if acc.contains x then acc else acc ++ [x]

/-- Rendering of a percentage with one decimal place; models CPython float
formatting with format spec .1f, with exact rationals in place of binary
floats. -/
def fmt1f (q : ℚ) : String :=
  let scaled : Int := Int.floor (q * 10 + 1 / 2)
  let ip := scaled / 10
  let fp := (scaled % 10).toNat
  toString ip ++ "." ++ toString fp

/-- Thesis truncation applied inside every record block: a thesis longer than
100 characters is cut to its first 100 characters and a three-dot ellipsis is
appended; shorter strings pass through unchanged. -/
def formatThesis (t : String) : String :=
  if t.length > 100 then pyTake t 100 ++ "..." else t

/-- Per-record display block shared by the listing, search, cheque and
similarity operations: ordinal, name, website, HQ, countries, stage, type,
cheque range, truncated thesis and a separator line. -/
def recordBlock (i : Nat) (inv : Record) : String :=
  let name := inv.investorName.getD "N/A"
  let website := inv.website.getD "N/A"
  let hq := inv.globalHQ.getD "N/A"
  let countries := inv.countries.getD "N/A"
  let stage := inv.stage.getD "N/A"
  let itype := inv.investorType.getD "N/A"
  let cmin := inv.chequeMin.getD "N/A"
  let cmax := inv.chequeMax.getD "N/A"
  let thesis := formatThesis (inv.thesis.getD "N/A")
  s!"{i}. {name}\n" ++ s!"   Website: {website}\n" ++ s!"   Global HQ: {hq}\n" ++
    s!"   Countries: {countries}\n" ++ s!"   Stage: {stage}\n" ++ s!"   Type: {itype}\n" ++
    s!"   First Cheque: {cmin} - {cmax}\n" ++ s!"   Thesis: {thesis}\n" ++
    pyRepeat "-" 80 ++ "\n\n"

/-- Enumerated record blocks, modelling the loop over enumerate(data[:10], 1)
that appends one display block per shown record. -/
def blockLoop (i : Nat) : List Record → String
  | [] => ""
  | r :: rs => recordBlock i r ++ blockLoop (i + 1) rs

/-- Model of the exposed operation get_investor_data after its remote fetch:
the fetch outcome (error message or row list) is the argument, and the body
translates the formatting code, including the boundary handler that converts
a fetch failure into a fixed-phrase error string. -/
def get_investor_data (fetched : Except String (List Record)) : String :=
  match fetched with
  | .error e => s!"An error occurred while fetching investor data: {e}"
  | .ok data =>
    if data.isEmpty then "No investor data found."
    else
      let n := data.length
      let headline := s!"Found {n} investor records:\n\n"
      let body := blockLoop 1 (data.take 10)
      let resp := headline ++ body
      if n > 10 then
        let m := n - 10
        resp ++ s!"... and {m} more records."
      else resp

/-- Per-record keep decision of the cheque-range filter loop: records lacking
either cheque field are dropped; a truthy min_amount rejects when the lowered
minimum-cheque string is lexicographically below the lowered bound, and a
truthy max_amount rejects (if still included) when the lowered maximum-cheque
string is lexicographically above the lowered bound. -/
def chequeKeep (minAmount maxAmount : Option String) (inv : Record) : Bool :=
  if !(truthy inv.chequeMin) || !(truthy inv.chequeMax) then false
  else
    let minCheque := inv.chequeMin.getD ""
    let maxCheque := inv.chequeMax.getD ""
    let keep1 := if truthy minAmount then
        !(pyLt (pyLower minCheque) (pyLower (minAmount.getD ""))) else true
    let keep2 := if truthy maxAmount && keep1 then
        !(pyLt (pyLower (maxAmount.getD "")) (pyLower maxCheque)) else keep1
    keep2

/-- Filtering loop of find_investors_by_cheque_size: records are appended in
encounter order when kept. -/
def chequeFilterLoop (minAmount maxAmount : Option String) (data : List Record) :
    List Record :=
  data.filter (chequeKeep minAmount maxAmount)

/-- Model of the exposed operation find_investors_by_cheque_size after its
remote fetch (which is always issued without a row limit). -/
def find_investors_by_cheque_size (minAmount maxAmount : Option String)
    (limit : Option Nat) (fetched : Except String (List Record)) : String :=
  match fetched with
  | .error e => s!"An error occurred while searching by cheque size: {e}"
  | .ok data =>
    if data.isEmpty then "No investor data found."
    else
      let filtered := chequeFilterLoop minAmount maxAmount data
      if filtered.isEmpty then
        let minDesc : List String :=
          if truthy minAmount then ["minimum: " ++ minAmount.getD ""] else []
        let maxDesc : List String :=
          if truthy maxAmount then ["maximum: " ++ maxAmount.getD ""] else []
        let fd := minDesc ++ maxDesc
        let fstr := if fd.isEmpty then "the specified criteria"
          else String.intercalate ", " fd
        s!"No investors found matching {fstr}."
      else
        let limited := pySliceOpt filtered limit
        let n := limited.length
        let headline := s!"Found {n} investors matching your criteria:\n\n"
        let body := blockLoop 1 (limited.take 10)
        let resp := headline ++ body
        if n > 10 then
          let m := n - 10
          resp ++ s!"... and {m} more records."
        else resp

/-- Single step of the frequency-count loops over one single-valued field:
a record whose value is missing or empty leaves the counter unchanged, any
other record bumps the count of its value. -/
def countStep (proj : Record → Option String) (counts : List (String × Nat))
    (r : Record) : List (String × Nat) :=
  match proj r with
  | none => counts
  | some v => if v != "" then bump counts v else counts

/-- Frequency counting of one single-valued field over the whole record set,
as in analyze_investment_stages and get_investor_statistics. -/
def countField (proj : Record → Option String) (data : List Record) :
    List (String × Nat) :=
  data.foldl (countStep proj) []

/-- Single step of the country-count loop of get_investor_statistics: a value
containing a comma is split on commas and each stripped piece is counted; a
comma-free value is counted whole (and unstripped, as in the source). -/
def countryStep (counts : List (String × Nat)) (r : Record) : List (String × Nat) :=
  match r.countries with
  | none => counts
  | some cs =>
    if cs != "" then
      if pyInStr "," cs then
        (pySplitComma cs).foldl (fun c tok => bump c (pyStrip tok)) counts
      else bump counts cs
    else counts

/-- Country frequency counts of get_investor_statistics. -/
def countryCounts (data : List Record) : List (String × Nat) :=
  data.foldl countryStep []

/-- Ranked stage entries of analyze_investment_stages: per-stage counts sorted
by descending count (stable), each with its percentage computed as count
divided by the sum of all per-stage counts, times 100. -/
def stageAnalysisEntries (data : List Record) : List (String × Nat × ℚ) :=
  let sc := countField (fun r => r.stage) data
  let total := sumCounts sc
  (sortDescBy (fun p => p.2) sc).map
    (fun p => (p.1, p.2, ((p.2 : ℚ) / (total : ℚ)) * 100))

/-- Model of the exposed operation analyze_investment_stages after its remote
fetch. -/
def analyze_investment_stages (fetched : Except String (List Record)) : String :=
  match fetched with
  | .error e => s!"An error occurred while analyzing investment stages: {e}"
  | .ok data =>
    if data.isEmpty then "No investor data found."
    else
      let sc := countField (fun r => r.stage) data
      if sc.isEmpty then "No investment stage data found."
      else
        let total := sumCounts sc
        let body := (stageAnalysisEntries data).foldl
          (fun acc e =>
            let stageName := e.1
            let count := e.2.1
            let pct := fmt1f e.2.2
            acc ++ s!"• {stageName}: {count} investors ({pct}%)\n") ""
        let uniq := sc.length
        "Investment Stage Analysis:\n\n" ++ body ++
          s!"\nTotal investors analyzed: {total}" ++
          s!"\nUnique investment stages: {uniq}"

/-- Top-five investor-type entries of get_investor_statistics: counts sorted
descending (stable), truncated to five, each with its percentage computed as
count divided by the full record count, times 100. -/
def statTypeEntries (data : List Record) : List (String × Nat × ℚ) :=
  ((sortDescBy (fun p => p.2) (countField (fun r => r.investorType) data)).take 5).map
    (fun p => (p.1, p.2, ((p.2 : ℚ) / (data.length : ℚ)) * 100))

/-- Top-five stage entries of get_investor_statistics, with percentages of the
full record count. -/
def statStageEntries (data : List Record) : List (String × Nat × ℚ) :=
  ((sortDescBy (fun p => p.2) (countField (fun r => r.stage) data)).take 5).map
    (fun p => (p.1, p.2, ((p.2 : ℚ) / (data.length : ℚ)) * 100))

/-- Top-five country entries of get_investor_statistics, with percentages of
the full record count. -/
def statCountryEntries (data : List Record) : List (String × Nat × ℚ) :=
  ((sortDescBy (fun p => p.2) (countryCounts data)).take 5).map
    (fun p => (p.1, p.2, ((p.2 : ℚ) / (data.length : ℚ)) * 100))

/-- Cheque-data pairs collected by get_investor_statistics: both cheque fields
present, non-empty and different from the N/A placeholder. -/
def chequeDataOf (data : List Record) : List (String × String) :=
  data.foldl (fun acc r =>
    if truthy r.chequeMin && truthy r.chequeMax &&
        (r.chequeMin.getD "" != "N/A") && (r.chequeMax.getD "" != "N/A")
    then acc ++ [(r.chequeMin.getD "", r.chequeMax.getD "")] else acc) []

/-- Model of the exposed operation get_investor_statistics after its remote
fetch. -/
def get_investor_statistics (fetched : Except String (List Record)) : String :=
  match fetched with
  | .error e => s!"An error occurred while getting statistics: {e}"
  | .ok data =>
    if data.isEmpty then "No investor data found."
    else
      let total := data.length
      let typeLines := (statTypeEntries data).foldl
        (fun acc e =>
          let tname := e.1
          let count := e.2.1
          let pct := fmt1f e.2.2
          acc ++ s!"• {tname}: {count} ({pct}%)\n") ""
      let stageLines := (statStageEntries data).foldl
        (fun acc e =>
          let sname := e.1
          let count := e.2.1
          let pct := fmt1f e.2.2
          acc ++ s!"• {sname}: {count} ({pct}%)\n") ""
      let countryLines := (statCountryEntries data).foldl
        (fun acc e =>
          let cname := e.1
          let count := e.2.1
          let pct := fmt1f e.2.2
          acc ++ s!"• {cname}: {count} ({pct}%)\n") ""
      let cheq := chequeDataOf data
      let base := "Investor Database Statistics:\n\n" ++
        s!"Total Investors: {total}\n\n" ++
        "Top Investor Types:\n" ++ typeLines ++
        "\nTop Investment Stages:\n" ++ stageLines ++
        "\nTop Investment Countries:\n" ++ countryLines
      if !cheq.isEmpty then
        let nc := cheq.length
        let pctc := fmt1f (((nc : ℚ) / (total : ℚ)) * 100)
        base ++ "\nCheque Size Data:\n" ++
          s!"• Investors with cheque data: {nc}\n" ++
          s!"• Percentage with cheque data: {pctc}%\n"
      else base

/-- Concrete record with every column present, used by witnesses. -/
def recA : Record :=
  { investorName := some "Alpha Fund", website := some "https://alpha.example",
    globalHQ := some "Berlin, Germany", countries := some "Germany, France",
    stage := some "Seed", thesis := some "B2B SaaS", investorType := some "VC",
    chequeMin := some "100k", chequeMax := some "1M" }

/-- Concrete record whose minimum cheque is the string 9M, used by witnesses
and by the counterexample on the cheque filter. -/
def recB : Record :=
  { investorName := some "Beta Angels", stage := some "Seed",
    investorType := some "Angel network",
    chequeMin := some "9M", chequeMax := some "20M" }

/-- Concrete two-record set with one typed and one untyped record, exhibiting
the denominator used by the statistics percentages. -/
def c1data : List Record :=
  [{ investorName := some "Gamma VC", investorType := some "VC" },
   { investorName := some "Delta Fund" }]

/-- Scored candidate of the similarity operation: the record, its integer
score and the ordered matched-factor labels. -/
structure Scored where
  investor : Record
  score : Nat
  factors : List String
deriving DecidableEq

/-- Score and matched-factor labels of one candidate against the target, as
accumulated sequentially by find_similar_investors: +3 for equal investor
type, +2 for equal stage, +2 for equal countries string, +1 when the
candidate HQ contains some whitespace token of the target HQ (with both HQ
strings non-empty). -/
def scoreAndFactors (target inv : Record) : Nat × List String :=
  let s0 : Nat := 0
  let f0 : List String := []
  let p1 := if inv.investorType == target.investorType
    then (s0 + 3, f0 ++ ["same investor type"]) else (s0, f0)
  let p2 := if inv.stage == target.stage
    then (p1.1 + 2, p1.2 ++ ["same investment stage"]) else p1
  let p3 := if inv.countries == target.countries
    then (p2.1 + 2, p2.2 ++ ["same investment countries"]) else p2
  let targetHQ := target.globalHQ.getD ""
  let invHQ := inv.globalHQ.getD ""
  let p4 := if targetHQ != "" && invHQ != "" &&
      (pySplitWs targetHQ).any (fun w => pyInStr w invHQ)
    then (p3.1 + 1, p3.2 ++ ["similar HQ location"]) else p3
  p4

/-- Closed-form similarity score stated by the spec: the sum of the four
weighted indicator terms. -/
def simScoreSpec (target inv : Record) : Nat :=
  (if inv.investorType == target.investorType then 3 else 0) +
  (if inv.stage == target.stage then 2 else 0) +
  (if inv.countries == target.countries then 2 else 0) +
  (if (target.globalHQ.getD "") != "" && (inv.globalHQ.getD "") != "" &&
      (pySplitWs (target.globalHQ.getD "")).any
        (fun w => pyInStr w (inv.globalHQ.getD "")) then 1 else 0)

/-- Single step of the scoring loop: candidates named like the target are
skipped, all others are scored and appended when the score is positive. -/
def scoreStep (investorName : String) (target : Record) (acc : List Scored)
    (inv : Record) : List Scored :=
  if inv.investorName == some investorName then acc
  else
    let sf := scoreAndFactors target inv
    if sf.1 > 0 then acc ++ [⟨inv, sf.1, sf.2⟩] else acc

/-- Scoring loop of find_similar_investors over the candidate set, in
encounter order. -/
def scoreCandidates (investorName : String) (target : Record)
    (cands : List Record) : List Scored :=
  cands.foldl (scoreStep investorName target) []

/-- Per-candidate display block of the similarity operation. -/
def similarBlock (i : Nat) (item : Scored) : String :=
  let inv := item.investor
  let name := inv.investorName.getD "N/A"
  let score := item.score
  let website := inv.website.getD "N/A"
  let hq := inv.globalHQ.getD "N/A"
  let countries := inv.countries.getD "N/A"
  let stage := inv.stage.getD "N/A"
  let itype := inv.investorType.getD "N/A"
  let cmin := inv.chequeMin.getD "N/A"
  let cmax := inv.chequeMax.getD "N/A"
  let factors := String.intercalate ", " item.factors
  let thesis := formatThesis (inv.thesis.getD "N/A")
  s!"{i}. {name} (Similarity Score: {score})\n" ++ s!"   Website: {website}\n" ++
    s!"   Global HQ: {hq}\n" ++ s!"   Countries: {countries}\n" ++
    s!"   Stage: {stage}\n" ++ s!"   Type: {itype}\n" ++
    s!"   First Cheque: {cmin} - {cmax}\n" ++
    s!"   Similarity Factors: {factors}\n" ++ s!"   Thesis: {thesis}\n" ++
    pyRepeat "-" 80 ++ "\n\n"

/-- Enumerated similarity blocks over the first ten ranked candidates. -/
def similarBlockLoop (i : Nat) : List Scored → String
  | [] => ""
  | x :: xs => similarBlock i x ++ similarBlockLoop (i + 1) xs

/-- Model of the exposed operation find_similar_investors: the first fetch
outcome is the target lookup (issued with the name filter and row limit 1),
the second the candidate fetch (issued without a limit). -/
def find_similar_investors (investorName : String) (limit : Option Nat)
    (targetFetch : Except String (List Record))
    (candidateFetch : Except String (List Record)) : String :=
  match targetFetch with
  | .error e => s!"An error occurred while finding similar investors: {e}"
  | .ok targetData =>
    match targetData with
    | [] => "No investor found with name " ++ sglq ++ investorName ++ sglq ++ "."
    | target :: _ =>
      match candidateFetch with
      | .error e => s!"An error occurred while finding similar investors: {e}"
      | .ok similarData =>
        if similarData.isEmpty then "No investor data found."
        else
          let scored := scoreCandidates investorName target similarData
          let sorted := sortDescBy (fun x => x.score) scored
          if sorted.isEmpty then
            "No similar investors found for " ++ sglq ++ investorName ++ sglq ++ "."
          else
            let limited := pySliceOpt sorted limit
            let headline := "Similar investors to " ++ sglq ++ investorName ++
              sglq ++ ":\n\n"
            let body := similarBlockLoop 1 (limited.take 10)
            let resp := headline ++ body
            let n := limited.length
            if n > 10 then
              let m := n - 10
              resp ++ s!"... and {m} more similar investors."
            else resp

/-- Fixed investor-type synonym table of search_investors_by_criteria. -/
def investorTypeMapping : List (String × String) :=
  [("angel", "Angel network"), ("angel network", "Angel network"), ("vc", "VC"),
   ("venture capital", "VC"), ("pe", "PE"), ("private equity", "PE"),
   ("cvc", "CVC"), ("corporate venture capital", "CVC")]

/-- Fixed country synonym table of search_investors_by_criteria. -/
def countryMapping : List (String × String) :=
  [("united states", "USA"), ("usa", "USA"), ("us", "USA"), ("america", "USA"),
   ("united kingdom", "UK"), ("uk", "UK"), ("england", "UK"),
   ("great britain", "UK"), ("germany", "Germany"), ("france", "France"),
   ("canada", "Canada"), ("australia", "Australia"), ("japan", "Japan"),
   ("china", "China"), ("india", "India"), ("singapore", "Singapore"),
   ("netherlands", "Netherlands"), ("sweden", "Sweden"),
   ("switzerland", "Switzerland"), ("israel", "Israel")]

/-- Python dict .get(key, default) over an association table. -/
def lookupD (table : List (String × String)) (k : String) (d : String) : String :=
  match table.find? (fun p => p.1 == k) with
  | some p => p.2
  | none => d

/-- Equality-filter map built by search_investors_by_criteria ahead of its
fetch: type and country go through the synonym tables on their lowered forms,
stage and HQ pass through verbatim; absent or empty arguments contribute no
entry. The map only shapes the external query. -/
def searchFilters (investorType stage country hqLocation : Option String) :
    List (String × String) :=
  (if truthy investorType then
      [("Investor type",
        lookupD investorTypeMapping (pyLower (investorType.getD ""))
          (investorType.getD ""))]
    else []) ++
  (if truthy stage then [("Stage of investment", stage.getD "")] else []) ++
  (if truthy country then
      [("Countries of investment",
        lookupD countryMapping (pyLower (country.getD "")) (country.getD ""))]
    else []) ++
  (if truthy hqLocation then [("Global HQ", hqLocation.getD "")] else [])

/-- Model of the exposed operation search_investors_by_criteria after its
remote fetch; the row limit is passed only to the external fetch. -/
def search_investors_by_criteria (investorType stage country hqLocation : Option String)
    (limit : Option Nat) (fetched : Except String (List Record)) : String :=
  match fetched with
  | .error e => s!"An error occurred while searching investors: {e}"
  | .ok data =>
    if data.isEmpty then
      let d1 : List String :=
        if truthy investorType then ["type: " ++ investorType.getD ""] else []
      let d2 : List String := if truthy stage then ["stage: " ++ stage.getD ""] else []
      let d3 : List String :=
        if truthy country then ["country: " ++ country.getD ""] else []
      let d4 : List String :=
        if truthy hqLocation then ["HQ location: " ++ hqLocation.getD ""] else []
      let fd := d1 ++ d2 ++ d3 ++ d4
      let fstr := if fd.isEmpty then "the specified criteria"
        else String.intercalate ", " fd
      s!"No investors found matching {fstr}."
    else
      let n := data.length
      let headline := s!"Found {n} investors matching your criteria:\n\n"
      let body := blockLoop 1 (data.take 10)
      let resp := headline ++ body
      if n > 10 then
        let m := n - 10
        resp ++ s!"... and {m} more records."
      else resp

/-- Model of the exposed operation get_available_investor_types after its
remote fetch. -/
def get_available_investor_types (fetched : Except String (List Record)) : String :=
  match fetched with
  | .error e => s!"An error occurred while fetching investor types: {e}"
  | .ok data =>
    if data.isEmpty then "No investor data found."
    else
      let collected := data.foldl (fun acc r =>
        match r.investorType with
        | none => acc
        | some t => if t != "" then addToSet acc t else acc) []
      if collected.isEmpty then "No investor types found in the database."
      else
        let sortedTypes := sortAscStr collected
        let body := (sortedTypes.enumFrom 1).foldl (fun acc p =>
          let i := p.1
          let t := p.2
          acc ++ s!"{i}. {t}\n") ""
        let n := collected.length
        "Available investor types in the database:\n\n" ++ body ++
          s!"\nTotal: {n} unique investor types"

/-- Model of the exposed operation get_available_countries after its remote
fetch. -/
def get_available_countries (fetched : Except String (List Record)) : String :=
  match fetched with
  | .error e => s!"An error occurred while fetching countries: {e}"
  | .ok data =>
    if data.isEmpty then "No investor data found."
    else
      let collected := data.foldl (fun acc r =>
        match r.countries with
        | none => acc
        | some c =>
          if c != "" then
            if pyInStr "," c then
              (pySplitComma c).foldl (fun a tok => addToSet a (pyStrip tok)) acc
            else addToSet acc (pyStrip c)
          else acc) []
      if collected.isEmpty then "No countries found in the database."
      else
        let sortedCountries := sortAscStr collected
        let body := (sortedCountries.enumFrom 1).foldl (fun acc p =>
          let i := p.1
          let c := p.2
          acc ++ s!"{i}. {c}\n") ""
        let n := collected.length
        "Available countries in the database:\n\n" ++ body ++
          s!"\nTotal: {n} unique countries"

/-- Thesis item of analyze_investment_thesis: a non-empty, non-placeholder
thesis together with the (possibly missing) type and stage of its record. -/
structure ThesisItem where
  thesis : String
  itype : Option String
  stage : Option String
deriving DecidableEq

/-- Fixed keyword vocabulary of analyze_investment_thesis. -/
def commonKeywords : List String :=
  ["AI", "artificial intelligence", "machine learning", "ML", "fintech",
   "financial technology", "healthtech", "healthcare", "SaaS", "software",
   "enterprise", "B2B", "B2C", "ecommerce", "marketplace", "platform",
   "mobile", "biotech", "biotechnology", "clean energy", "sustainability",
   "cybersecurity", "security", "blockchain", "crypto", "edtech", "education",
   "real estate", "proptech"]

/-- Thesis items collected by analyze_investment_thesis. -/
def thesisDataOf (data : List Record) : List ThesisItem :=
  data.foldl (fun acc r =>
    match r.thesis with
    | none => acc
    | some t =>
      if t != "" && t != "N/A" then acc ++ [⟨t, r.investorType, r.stage⟩]
      else acc) []

/-- Keyword counts of analyze_investment_thesis: for each keyword in fixed
order, the number of items whose lowered thesis contains the lowered keyword,
kept only when positive. -/
def keywordCounts (items : List ThesisItem) : List (String × Nat) :=
  commonKeywords.foldl (fun acc kw =>
    let c := (items.filter (fun it => pyInStr (pyLower kw) (pyLower it.thesis))).length
    if c > 0 then acc ++ [(kw, c)] else acc) []

/-- Insertion-ordered grouping update, modelling the type-to-theses dict of
analyze_investment_thesis. -/
def groupAdd : List (Option String × List String) → Option String → String →
    List (Option String × List String)
  | [], k, v => [(k, [v])]
  | (k0, vs) :: rest, k, v =>
    if k0 == k then (k0, vs ++ [v]) :: rest else (k0, vs) :: groupAdd rest k v

/-- Grouping of thesis items by investor type, in insertion order. -/
def typeGroups (items : List ThesisItem) : List (Option String × List String) :=
  items.foldl (fun acc it => groupAdd acc it.itype it.thesis) []

/-- Model of the exposed operation analyze_investment_thesis after its remote
fetch. -/
def analyze_investment_thesis (fetched : Except String (List Record)) : String :=
  match fetched with
  | .error e => s!"An error occurred while analyzing investment thesis: {e}"
  | .ok data =>
    if data.isEmpty then "No investor data found."
    else
      let items := thesisDataOf data
      if items.isEmpty then "No investment thesis data found."
      else
        let sortedK := (sortDescBy (fun p => p.2) (keywordCounts items)).take 10
        let n := items.length
        let themeLines := sortedK.foldl (fun acc p =>
          let kw := p.1
          let c := p.2
          let pct := fmt1f (((c : ℚ) / (n : ℚ)) * 100)
          acc ++ s!"• {kw}: {c} investors ({pct}%)\n") ""
        let groupLines := (typeGroups items).foldl (fun acc p =>
          if p.2.length > 5 then
            let tname := pyStr p.1
            let c := p.2.length
            acc ++ s!"• {tname}: {c} investors\n"
          else acc) ""
        "Investment Thesis Analysis:\n\n" ++
          s!"Total investors with thesis data: {n}\n\n" ++
          "Most Common Investment Themes:\n" ++ themeLines ++
          "\nThesis Analysis by Investor Type:\n" ++ groupLines

/-- Concrete target record for the similarity witness. -/
def recC : Record :=
  { investorName := some "Target One", investorType := some "VC",
    stage := some "Seed", countries := some "USA, Canada",
    globalHQ := some "Paris, France" }

/-- Concrete candidate record matching the target on type, stage and
countries, with no HQ token overlap. -/
def recD : Record :=
  { investorName := some "Candidate Two", investorType := some "VC",
    stage := some "Seed", countries := some "USA, Canada",
    globalHQ := some "London, UK" }

lemma length_pyTake (s : String) (n : Nat) : (pyTake s n).length = min n s.length := by
  have h : (pyTake s n).length = (s.data.take n).length := rfl
  rw [h, List.length_take]
  rfl

lemma blockLoop_eq_join (l : List Record) (i : Nat) :
    blockLoop i l = joinAll ((l.enumFrom i).map (fun p => recordBlock p.1 p.2)) := by
  induction l generalizing i with
  | nil => simp [blockLoop, joinAll]
  | cons r rs ih => simp [blockLoop, List.enumFrom_cons, joinAll, ih]

lemma length_enumFrom {α : Type} (i : Nat) (l : List α) :
    (l.enumFrom i).length = l.length := by
  induction l generalizing i with
  | nil => rfl
  | cons a as ih => simp [List.enumFrom_cons, ih]

lemma keepBools (a la b lb : Bool) :
    ((if (b && (if a then !la else true)) = true then !lb else (if a then !la else true)) = true) ↔
      ((a = true → ¬ (la = true)) ∧ (b = true → ¬ (lb = true))) := by
  cases a <;> cases la <;> cases b <;> cases lb <;> simp

lemma chequeKeep_iff (minAmount maxAmount : Option String) (inv : Record) :
    chequeKeep minAmount maxAmount inv = true ↔
      truthy inv.chequeMin = true ∧ truthy inv.chequeMax = true ∧
      (truthy minAmount = true →
        ¬ (pyLt (pyLower (inv.chequeMin.getD "")) (pyLower (minAmount.getD "")) = true)) ∧
      (truthy maxAmount = true →
        ¬ (pyLt (pyLower (maxAmount.getD "")) (pyLower (inv.chequeMax.getD "")) = true)) := by
  unfold chequeKeep
  cases hmin : truthy inv.chequeMin with
  | false => simp [hmin]
  | true =>
    cases hmax : truthy inv.chequeMax with
    | false => simp [hmin, hmax]
    | true =>
      simp only [hmin, hmax, Bool.not_true, Bool.or_self, Bool.false_or, if_false,
        Bool.false_eq_true, true_and]
      exact keepBools _ _ _ _

lemma sumCounts_nil : sumCounts [] = 0 := rfl

lemma sumCounts_cons (p : String × Nat) (m : List (String × Nat)) :
    sumCounts (p :: m) = p.2 + sumCounts m := by
  simp [sumCounts]

lemma sumCounts_bump (m : List (String × Nat)) (k : String) :
    sumCounts (bump m k) = sumCounts m + 1 := by
  induction m with
  | nil => rfl
  | cons p rest ih =>
    obtain ⟨k0, v⟩ := p
    by_cases h : (k0 == k) = true
    · simp [bump, h, sumCounts_cons]
      omega
    · simp only [bump, h, if_false, Bool.false_eq_true, sumCounts_cons, ih]
      omega

lemma countStep_falsy (proj : Record → Option String) (m : List (String × Nat))
    (r : Record) (h : truthy (proj r) = false) : countStep proj m r = m := by
  unfold countStep
  cases hp : proj r with
  | none => rfl
  | some v =>
    rw [hp] at h
    simp [truthy] at h
    simp [h]

lemma countStep_truthy (proj : Record → Option String) (m : List (String × Nat))
    (r : Record) (h : truthy (proj r) = true) :
    countStep proj m r = bump m ((proj r).getD "") := by
  unfold countStep
  cases hp : proj r with
  | none => rw [hp] at h; simp [truthy] at h
  | some v =>
    rw [hp] at h
    simp only [truthy] at h
    simp [h]

lemma sumCounts_countFold (proj : Record → Option String) (data : List Record)
    (m : List (String × Nat)) :
    sumCounts (data.foldl (countStep proj) m) =
      sumCounts m + (data.filter (fun r => truthy (proj r))).length := by
  induction data generalizing m with
  | nil => simp
  | cons r rs ih =>
    rw [List.foldl_cons, ih, List.filter_cons]
    by_cases h : truthy (proj r) = true
    · rw [countStep_truthy proj m r h, sumCounts_bump]
      simp [h]
      omega
    · have hf : truthy (proj r) = false := by
        cases hh : truthy (proj r) with
        | false => rfl
        | true => exact absurd hh h
      rw [countStep_falsy proj m r hf, hf]
      simp

lemma sumCounts_countField (proj : Record → Option String) (data : List Record) :
    sumCounts (countField proj data) =
      (data.filter (fun r => truthy (proj r))).length := by
  rw [countField, sumCounts_countFold, sumCounts_nil]
  omega

lemma splitOnPred_ne_nil (p : Char → Bool) (l : List Char) : splitOnPred p l ≠ [] := by
  cases l with
  | nil => simp [splitOnPred]
  | cons c rest =>
    simp only [splitOnPred]
    cases h : splitOnPred p rest with
    | nil => simp
    | cons piece pieces =>
      by_cases hp : p c = true <;> simp [hp]

lemma sumCounts_bumpFold (parts : List String) (m : List (String × Nat)) :
    sumCounts (parts.foldl (fun c tok => bump c (pyStrip tok)) m) =
      sumCounts m + parts.length := by
  induction parts generalizing m with
  | nil => simp
  | cons t ts ih =>
    rw [List.foldl_cons, ih, sumCounts_bump]
    simp
    omega

lemma countryStep_ge (m : List (String × Nat)) (r : Record) :
    sumCounts m + (if truthy r.countries = true then 1 else 0) ≤
      sumCounts (countryStep m r) := by
  unfold countryStep
  cases hc : r.countries with
  | none => simp [truthy, hc]
  | some cs =>
    simp only [truthy]
    by_cases h : (cs != "") = true
    · simp only [h, if_true]
      by_cases hcomma : pyInStr "," cs = true
      · simp only [hcomma, if_true, sumCounts_bumpFold]
        have hne : (splitOnPred (fun c => c == ',') cs.data) ≠ [] :=
          splitOnPred_ne_nil _ _
        have hlen : 1 ≤ (pySplitComma cs).length := by
          rw [pySplitComma, List.length_map]
          cases hsp : splitOnPred (fun c => c == ',') cs.data with
          | nil => exact absurd hsp hne
          | cons a as => simp
        omega
      · simp only [hcomma, if_false, Bool.false_eq_true, sumCounts_bump]
        omega
    · have hf : (cs != "") = false := by
        cases hh : (cs != "") with
        | false => rfl
        | true => exact absurd hh h
      simp [hf]

lemma countryFold_ge (data : List Record) (m : List (String × Nat)) :
    sumCounts m + (data.filter (fun r => truthy r.countries)).length ≤
      sumCounts (data.foldl countryStep m) := by
  induction data generalizing m with
  | nil => simp
  | cons r rs ih =>
    rw [List.foldl_cons, List.filter_cons]
    have h1 := countryStep_ge m r
    have h2 := ih (countryStep m r)
    by_cases h : truthy r.countries = true
    · rw [h] at h1
      simp only [if_true] at h1
      simp only [h, if_true, List.length_cons]
      omega
    · have hf : truthy r.countries = false := by
        cases hh : truthy r.countries with
        | false => rfl
        | true => exact absurd hh h
      rw [hf]
      simp only [Bool.false_eq_true, if_false]
      rw [hf] at h1
      simp at h1
      omega

lemma countFold_skip (proj : Record → Option String) (data : List Record)
    (m : List (String × Nat)) :
    data.foldl (countStep proj) m =
      (data.filter (fun r => truthy (proj r))).foldl (countStep proj) m := by
  induction data generalizing m with
  | nil => rfl
  | cons r rs ih =>
    rw [List.foldl_cons, List.filter_cons]
    by_cases h : truthy (proj r) = true
    · rw [h]
      simp only [if_true]
      rw [List.foldl_cons, ih]
    · have hf : truthy (proj r) = false := by
        cases hh : truthy (proj r) with
        | false => rfl
        | true => exact absurd hh h
      rw [hf]
      simp only [Bool.false_eq_true, if_false]
      rw [countStep_falsy proj m r hf, ih]

lemma countryStep_falsy (m : List (String × Nat)) (r : Record)
    (h : truthy r.countries = false) : countryStep m r = m := by
  unfold countryStep
  cases hc : r.countries with
  | none => rfl
  | some cs =>
    rw [hc] at h
    simp [truthy] at h
    simp [h]

lemma countryFold_skip (data : List Record) (m : List (String × Nat)) :
    data.foldl countryStep m =
      (data.filter (fun r => truthy r.countries)).foldl countryStep m := by
  induction data generalizing m with
  | nil => rfl
  | cons r rs ih =>
    rw [List.foldl_cons, List.filter_cons]
    by_cases h : truthy r.countries = true
    · rw [h]
      simp only [if_true]
      rw [List.foldl_cons, ih]
    · have hf : truthy r.countries = false := by
        cases hh : truthy r.countries with
        | false => rfl
        | true => exact absurd hh h
      rw [hf]
      simp only [Bool.false_eq_true, if_false]
      rw [countryStep_falsy m r hf, ih]

/-- Claim C6: for a thesis of length L the formatted thesis is unchanged when
L is at most 100 (so its length is exactly L), and is the first 100 characters
followed by a three-character ellipsis when L exceeds 100 (so its length is
min(L, 100) + 3). -/
theorem C6_thesis_truncation (t : String) :
    (t.length ≤ 100 → formatThesis t = t ∧ (formatThesis t).length = t.length) ∧
    (100 < t.length →
      formatThesis t = pyTake t 100 ++ "..." ∧
      (formatThesis t).length = min t.length 100 + 3) := by
  constructor
  · intro h
    have hn : ¬ (t.length > 100) := by omega
    simp [formatThesis, hn]
  · intro h
    constructor
    · simp [formatThesis, h]
    · have hlen : (pyTake t 100 ++ "...").length = min 100 t.length + 3 := by
        rw [String.length_append, length_pyTake]
        rfl
      simp [formatThesis, h, hlen]
      omega

/-- Witness for claim C6: a 101-character thesis is truncated to 100
characters plus the ellipsis, and a short thesis passes through unchanged. -/
theorem C6_thesis_truncation_wit :
    formatThesis (pyRepeat "a" 101) = pyTake (pyRepeat "a" 101) 100 ++ "..." ∧
    formatThesis "fintech" = "fintech" :=
  ⟨((C6_thesis_truncation (pyRepeat "a" 101)).2 (by decide)).1,
   ((C6_thesis_truncation "fintech").1 (by decide)).1⟩

/-- Claim C5: for every non-empty record list, the listing output is a header
stating the exact total record count, followed by one display block per record
for the first min(total, 10) records in order, followed by exactly one
trailing more-line stating total minus 10 if and only if the total exceeds
ten. -/
theorem C5_format_shape (data : List Record) (h : data ≠ []) :
    get_investor_data (.ok data) =
      (let n := data.length
       s!"Found {n} investor records:\n\n")
        ++ joinAll (((data.take 10).enumFrom 1).map (fun p => recordBlock p.1 p.2))
        ++ (if 10 < data.length then
              (let m := data.length - 10
               s!"... and {m} more records.")
            else "") ∧
    ((data.take 10).enumFrom 1).length = min data.length 10 := by
  constructor
  · have hne : data.isEmpty = false := by
      cases data with
      | nil => exact absurd rfl h
      | cons a l => rfl
    simp only [get_investor_data, hne, Bool.false_eq_true, if_false, blockLoop_eq_join]
    by_cases h10 : 10 < data.length
    · simp [h10]
    · simp [h10]
  · rw [length_enumFrom, List.length_take]
    exact Nat.min_comm 10 data.length

/-- Witness for claim C5 at a concrete two-record list. -/
theorem C5_format_shape_wit :
    ((([recA, recB] : List Record).take 10).enumFrom 1).length =
      min ([recA, recB] : List Record).length 10 :=
  (C5_format_shape [recA, recB] (by decide)).2

/-- Claim C9: per-value frequency counts over a single-valued field sum to the
number of records with a non-empty value for that field, both for investor
types and for stages; for the comma-split countries field the per-token counts
sum to at least the number of records contributing at least one token. -/
theorem C9_count_totals (data : List Record) :
    sumCounts (countField (fun r => r.investorType) data) =
      (data.filter (fun r => truthy r.investorType)).length ∧
    sumCounts (countField (fun r => r.stage) data) =
      (data.filter (fun r => truthy r.stage)).length ∧
    (data.filter (fun r => truthy r.countries)).length ≤
      sumCounts (countryCounts data) := by
  refine ⟨sumCounts_countField _ _, sumCounts_countField _ _, ?_⟩
  have h := countryFold_ge data []
  rw [sumCounts_nil] at h
  rw [countryCounts]
  omega

/-- Claim C1 (amended): records with a missing or empty value for the counted
field are skipped by every frequency count; in the stage-distribution
analysis each reported percentage equals the value count divided by the
non-missing total (the sum of all per-value counts), while in the statistics
operation each reported percentage (types, stages, countries) equals the
value count divided by the full record count. -/
theorem C1_percentage_denominators (data : List Record) :
    countField (fun r => r.stage) data =
      countField (fun r => r.stage) (data.filter (fun r => truthy r.stage)) ∧
    countField (fun r => r.investorType) data =
      countField (fun r => r.investorType)
        (data.filter (fun r => truthy r.investorType)) ∧
    countryCounts data =
      countryCounts (data.filter (fun r => truthy r.countries)) ∧
    stageAnalysisEntries data =
      (sortDescBy (fun p => p.2) (countField (fun r => r.stage) data)).map
        (fun p => (p.1, p.2,
          ((p.2 : ℚ) /
            (((data.filter (fun r => truthy r.stage)).length : ℕ) : ℚ)) * 100)) ∧
    statTypeEntries data =
      ((sortDescBy (fun p => p.2)
          (countField (fun r => r.investorType) data)).take 5).map
        (fun p => (p.1, p.2, ((p.2 : ℚ) / (data.length : ℚ)) * 100)) ∧
    statStageEntries data =
      ((sortDescBy (fun p => p.2) (countField (fun r => r.stage) data)).take 5).map
        (fun p => (p.1, p.2, ((p.2 : ℚ) / (data.length : ℚ)) * 100)) ∧
    statCountryEntries data =
      ((sortDescBy (fun p => p.2) (countryCounts data)).take 5).map
        (fun p => (p.1, p.2, ((p.2 : ℚ) / (data.length : ℚ)) * 100)) := by
  refine ⟨?_, ?_, ?_, ?_, rfl, rfl, rfl⟩
  · rw [countField, countField, countFold_skip]
  · rw [countField, countField, countFold_skip]
  · rw [countryCounts, countryCounts, countryFold_skip]
  · rw [stageAnalysisEntries]
    simp only [sumCounts_countField]

/-- Counterexample to claim C1 as stated: in the statistics operation on a
two-record set with one missing investor type, the reported percentage of the
present type is its count divided by the full record count (giving 50), not
its count divided by the non-missing total (which would give 100). -/
theorem C1_percentage_denominators_cex :
    ¬ (∀ e ∈ statTypeEntries c1data,
        e.2.2 = (e.2.1 : ℚ) /
          (((c1data.filter (fun r => truthy r.investorType)).length : ℕ) : ℚ) * 100) := by
  intro h
  have hpre : (sortDescBy (fun p => p.2)
      (countField (fun r => r.investorType) c1data)).take 5 = [("VC", 1)] := by decide
  have hmem := List.mem_map_of_mem
    (fun p : String × Nat => (p.1, p.2, ((p.2 : ℚ) / (c1data.length : ℚ)) * 100))
    (show (("VC", 1) : String × Nat) ∈ (sortDescBy (fun p => p.2)
        (countField (fun r => r.investorType) c1data)).take 5 by
      rw [hpre]
      exact List.mem_singleton_self _)
  have hmem2 : (fun p : String × Nat =>
      (p.1, p.2, ((p.2 : ℚ) / (c1data.length : ℚ)) * 100)) ("VC", 1) ∈
        statTypeEntries c1data := hmem
  have heq := h _ hmem2
  have hL : c1data.length = 2 := rfl
  have hF : (c1data.filter (fun r => truthy r.investorType)).length = 1 := by decide
  simp only [hL, hF] at heq
  norm_num at heq

/-- Claim C2 (amended): the cheque filter drops every record missing either
cheque field; for records with both fields, a truthy min_amount rejects
exactly when the lowered minimum-cheque string is lexicographically less than
the lowered bound, and a truthy max_amount symmetrically when the lowered
maximum-cheque string is greater; in particular the record with minimum
cheque 9M is kept, not rejected, under min_amount 10M. -/
theorem C2_cheque_filter (minAmount maxAmount : Option String)
    (data : List Record) (inv : Record) :
    (inv ∈ chequeFilterLoop minAmount maxAmount data ↔
      inv ∈ data ∧ truthy inv.chequeMin = true ∧ truthy inv.chequeMax = true ∧
      (truthy minAmount = true →
        ¬ (pyLt (pyLower (inv.chequeMin.getD ""))
            (pyLower (minAmount.getD "")) = true)) ∧
      (truthy maxAmount = true →
        ¬ (pyLt (pyLower (maxAmount.getD ""))
            (pyLower (inv.chequeMax.getD "")) = true))) ∧
    chequeFilterLoop (some "10M") none [recB] = [recB] := by
  constructor
  · rw [chequeFilterLoop, List.mem_filter, chequeKeep_iff]
  · decide

/-- Counterexample to claim C2 as stated: the record with minimum cheque 9M
is kept, not rejected, by the filter under min_amount 10M, because the
lowered string 9m does not compare lexicographically below 10m. -/
theorem C2_cheque_filter_cex :
    recB ∈ chequeFilterLoop (some "10M") none [recB] ∧
    pyLt (pyLower "9M") (pyLower "10M") = false := by decide

/-- Witness for claim C2: concrete membership obtained from the filter
characterization at the 9M record and the 10M bound. -/
theorem C2_cheque_filter_wit :
    recB ∈ chequeFilterLoop (some "10M") none [recA, recB] :=
  ((C2_cheque_filter (some "10M") none [recA, recB] recB).1).mpr (by decide)

lemma mem_insertDescBy {α : Type} (key : α → Nat) (x : α) (l : List α) (z : α) :
    z ∈ insertDescBy key x l ↔ z = x ∨ z ∈ l := by
  induction l with
  | nil => simp [insertDescBy]
  | cons y ys ih =>
    by_cases h : key y ≤ key x
    · simp [insertDescBy, h]
    · simp only [insertDescBy, h, if_false, List.mem_cons, ih]
      tauto

lemma pairwise_insertDescBy {α : Type} (key : α → Nat) (x : α) (l : List α)
    (hl : l.Pairwise (fun a b => key b ≤ key a)) :
    (insertDescBy key x l).Pairwise (fun a b => key b ≤ key a) := by
  induction l with
  | nil => simp [insertDescBy]
  | cons y ys ih =>
    rw [List.pairwise_cons] at hl
    obtain ⟨hy, hys⟩ := hl
    by_cases h : key y ≤ key x
    · rw [insertDescBy]
      simp only [h, if_true]
      rw [List.pairwise_cons]
      refine ⟨?_, List.Pairwise.cons hy hys⟩
      intro z hz
      rcases List.mem_cons.mp hz with rfl | hz2
      · exact h
      · exact le_trans (hy z hz2) h
    · rw [insertDescBy]
      simp only [h, if_false]
      rw [List.pairwise_cons]
      refine ⟨?_, ih hys⟩
      intro z hz
      rcases (mem_insertDescBy key x ys z).mp hz with rfl | hz2
      · omega
      · exact hy z hz2

lemma pairwise_sortDescBy {α : Type} (key : α → Nat) (l : List α) :
    (sortDescBy key l).Pairwise (fun a b => key b ≤ key a) := by
  induction l with
  | nil => simp [sortDescBy]
  | cons x xs ih => exact pairwise_insertDescBy key x (sortDescBy key xs) ih

lemma filter_insertDescBy {α : Type} (key : α → Nat) (x : α) (l : List α) (k : Nat) :
    (insertDescBy key x l).filter (fun a => key a == k) =
      if key x == k then x :: l.filter (fun a => key a == k)
      else l.filter (fun a => key a == k) := by
  induction l with
  | nil =>
    by_cases hk : key x = k
    · simp [insertDescBy, hk]
    · simp [insertDescBy, List.filter_cons, hk]
  | cons y ys ih =>
    by_cases h : key y ≤ key x
    · rw [insertDescBy]
      simp only [h, if_true]
      by_cases hk : key x = k
      · simp [List.filter_cons, hk]
      · simp [List.filter_cons, hk]
    · rw [insertDescBy]
      simp only [h, if_false]
      rw [List.filter_cons, ih]
      have hxy : key x < key y := by omega
      by_cases hk : key x = k
      · have hyk : ¬ (key y = k) := by omega
        simp [List.filter_cons, hk, hyk]
      · by_cases hyk : key y = k
        · simp [List.filter_cons, hk, hyk]
        · simp [List.filter_cons, hk, hyk]

lemma filter_sortDescBy {α : Type} (key : α → Nat) (l : List α) (k : Nat) :
    (sortDescBy key l).filter (fun a => key a == k) =
      l.filter (fun a => key a == k) := by
  induction l with
  | nil => rfl
  | cons x xs ih =>
    rw [sortDescBy, filter_insertDescBy, ih, List.filter_cons]

lemma scoreFold_eq (name : String) (target : Record) (cands : List Record)
    (acc : List Scored) :
    cands.foldl (scoreStep name target) acc =
      acc ++ (cands.filter (fun inv => !(inv.investorName == some name) &&
          decide (0 < (scoreAndFactors target inv).1))).map
        (fun inv =>
          ⟨inv, (scoreAndFactors target inv).1, (scoreAndFactors target inv).2⟩) := by
  induction cands generalizing acc with
  | nil => simp
  | cons inv rest ih =>
    rw [List.foldl_cons, List.filter_cons]
    by_cases h1 : (inv.investorName == some name) = true
    · have hstep : scoreStep name target acc inv = acc := by
        rw [scoreStep]
        simp [h1]
      rw [hstep, ih]
      simp [h1]
    · by_cases h2 : 0 < (scoreAndFactors target inv).1
      · have hstep : scoreStep name target acc inv =
            acc ++ [⟨inv, (scoreAndFactors target inv).1,
              (scoreAndFactors target inv).2⟩] := by
          rw [scoreStep]
          simp [h1, h2]
        rw [hstep, ih]
        have hp : (!(inv.investorName == some name) &&
            decide (0 < (scoreAndFactors target inv).1)) = true := by
          simp [h1, h2]
        rw [hp]
        simp
      · have hstep : scoreStep name target acc inv = acc := by
          rw [scoreStep]
          simp [h1, h2]
        rw [hstep, ih]
        have hp : (!(inv.investorName == some name) &&
            decide (0 < (scoreAndFactors target inv).1)) = false := by
          simp [h1, h2]
        rw [hp]
        simp

/-- Claim C3: the accumulated similarity score of any candidate equals the
closed-form weighted sum (3 for type, 2 for stage, 2 for countries, 1 for an
HQ token hit); the kept candidates are exactly the ones not named like the
target whose score is positive, in encounter order; the ranked list is sorted
by descending score and stable (every score class keeps encounter order); and
a candidate matching type, stage and countries with no HQ token overlap
scores exactly 7 with exactly the three corresponding labels in order. -/
theorem C3_similarity (name : String) (target : Record) (cands : List Record) :
    (∀ inv : Record, (scoreAndFactors target inv).1 = simScoreSpec target inv) ∧
    scoreCandidates name target cands =
      (cands.filter (fun inv => !(inv.investorName == some name) &&
          decide (0 < (scoreAndFactors target inv).1))).map
        (fun inv =>
          ⟨inv, (scoreAndFactors target inv).1, (scoreAndFactors target inv).2⟩) ∧
    (sortDescBy (fun x => x.score) (scoreCandidates name target cands)).Pairwise
      (fun a b => b.score ≤ a.score) ∧
    (∀ k : Nat, (sortDescBy (fun x => x.score)
        (scoreCandidates name target cands)).filter (fun x => x.score == k) =
      (scoreCandidates name target cands).filter (fun x => x.score == k)) ∧
    (∀ inv : Record, inv.investorType = target.investorType →
      inv.stage = target.stage → inv.countries = target.countries →
      (pySplitWs (target.globalHQ.getD "")).any
          (fun w => pyInStr w (inv.globalHQ.getD "")) = false →
      scoreAndFactors target inv =
        (7, ["same investor type", "same investment stage",
             "same investment countries"])) := by
  refine ⟨?_, ?_, ?_, ?_, ?_⟩
  · intro inv
    rw [scoreAndFactors, simScoreSpec]
    by_cases h1 : (inv.investorType == target.investorType) = true <;>
      by_cases h2 : (inv.stage == target.stage) = true <;>
        by_cases h3 : (inv.countries == target.countries) = true <;>
          by_cases h4 : ((target.globalHQ.getD "") != "" &&
              (inv.globalHQ.getD "") != "" &&
              (pySplitWs (target.globalHQ.getD "")).any
                (fun w => pyInStr w (inv.globalHQ.getD ""))) = true <;>
    simp [h1, h2, h3, h4]
  · rw [scoreCandidates, scoreFold_eq]
    simp
  · exact pairwise_sortDescBy _ _
  · intro k
    exact filter_sortDescBy _ _ k
  · intro inv h1 h2 h3 h4
    rw [scoreAndFactors]
    simp [h1, h2, h3, h4]

/-- Witness for claim C3: the concrete candidate matching the target on type,
stage and countries with disjoint HQ tokens scores exactly 7 with the three
labels. -/
theorem C3_similarity_wit :
    scoreAndFactors recC recD =
      (7, ["same investor type", "same investment stage",
           "same investment countries"]) :=
  (C3_similarity "Target One" recC [recD]).2.2.2.2 recD (by decide) (by decide)
    (by decide) (by decide)

/-- Claim C7: when the target lookup returns no record, the similarity
operation reports the no-investor-found message, and its result does not
depend on the candidate fetch in any way (so no second fetch result is
consumed and no scoring is performed). -/
theorem C7_missing_target (name : String) (limit : Option Nat)
    (cand1 cand2 : Except String (List Record)) :
    find_similar_investors name limit (.ok []) cand1 =
      "No investor found with name " ++ sglq ++ name ++ sglq ++ "." ∧
    find_similar_investors name limit (.ok []) cand1 =
      find_similar_investors name limit (.ok []) cand2 :=
  ⟨rfl, rfl⟩

lemma toString_str (s : String) : toString s = s := rfl

/-- Claim C4: every exposed data operation maps a failed remote fetch to a
plain single string, namely the error text prefixed by a fixed phrase naming
the operation; the similarity operation reports a failure of either of its
two fetches with its own fixed phrase. No exception propagates, since each
operation is a total function into strings. -/
theorem C4_error_boundary (e name : String) (lim : Option Nat)
    (itype stage country hq mn mx : Option String) (t : Record)
    (ts : List Record) (cand : Except String (List Record)) :
    get_investor_data (.error e) =
      "An error occurred while fetching investor data: " ++ e ∧
    search_investors_by_criteria itype stage country hq lim (.error e) =
      "An error occurred while searching investors: " ++ e ∧
    get_available_investor_types (.error e) =
      "An error occurred while fetching investor types: " ++ e ∧
    get_available_countries (.error e) =
      "An error occurred while fetching countries: " ++ e ∧
    analyze_investment_stages (.error e) =
      "An error occurred while analyzing investment stages: " ++ e ∧
    find_investors_by_cheque_size mn mx lim (.error e) =
      "An error occurred while searching by cheque size: " ++ e ∧
    analyze_investment_thesis (.error e) =
      "An error occurred while analyzing investment thesis: " ++ e ∧
    get_investor_statistics (.error e) =
      "An error occurred while getting statistics: " ++ e ∧
    find_similar_investors name lim (.error e) cand =
      "An error occurred while finding similar investors: " ++ e ∧
    find_similar_investors name lim (.ok (t :: ts)) (.error e) =
      "An error occurred while finding similar investors: " ++ e := by
  refine ⟨?_, ?_, ?_, ?_, ?_, ?_, ?_, ?_, ?_, ?_⟩ <;>
    simp [get_investor_data, search_investors_by_criteria,
      get_available_investor_types, get_available_countries,
      analyze_investment_stages, find_investors_by_cheque_size,
      analyze_investment_thesis, get_investor_statistics,
      find_similar_investors, toString_str]

/-- Claim C8: every aggregation and listing operation returns the literal
no-data message when the fetched record set is empty; since that literal is
the entire output, no percentage computation or division is reached. -/
theorem C8_empty_data (mn mx : Option String) (lim : Option Nat) :
    get_investor_data (.ok []) = "No investor data found." ∧
    get_available_investor_types (.ok []) = "No investor data found." ∧
    get_available_countries (.ok []) = "No investor data found." ∧
    analyze_investment_stages (.ok []) = "No investor data found." ∧
    find_investors_by_cheque_size mn mx lim (.ok []) = "No investor data found." ∧
    analyze_investment_thesis (.ok []) = "No investor data found." ∧
    get_investor_statistics (.ok []) = "No investor data found." :=
  ⟨rfl, rfl, rfl, rfl, rfl, rfl, rfl⟩

/-- Claim C10: a supplied row limit of 0 is falsy, so it behaves exactly like
no limit: the fetch helper leaves the row set unlimited, and the cheque and
similarity operations apply no truncation to their filtered or ranked
lists. -/
theorem C10_zero_limit (rows : List Record) (mn mx : Option String)
    (name : String) (f tf cf : Except String (List Record)) :
    applyFetchLimit rows (some 0) = rows ∧
    applyFetchLimit rows none = rows ∧
    find_investors_by_cheque_size mn mx (some 0) f =
      find_investors_by_cheque_size mn mx none f ∧
    find_similar_investors name (some 0) tf cf =
      find_similar_investors name none tf cf := by
  refine ⟨rfl, rfl, ?_, ?_⟩
  · cases f with
    | error e => rfl
    | ok data => rfl
  · cases tf with
    | error e => rfl
    | ok td =>
      cases td with
      | nil => rfl
      | cons t ts =>
        cases cf with
        | error e2 => rfl
        | ok cd => rfl
